import Mathlib

/-!
Shallow embedding of the DevTasks middleware core
(`src/server/src/middleware/{validation,auth,errorHandler}.ts`) and proofs
of the specified properties.

Conventions of the embedding:
* MongoDB `ObjectId` values are modelled as `Nat` (only decidable equality
  is used by the code, via `ObjectId.equals`).
* JavaScript runtime values appearing in request bodies are modelled by the
  closed variant `JSValue` (string / number / NaN / boolean / null /
  undefined).  JS numbers are modelled as `Int`; the fractional part plays
  no role in any comparison the code performs on the claims at hand.
* `await`ed database lookups are modelled as explicit lookup functions
  (`Id → Option _`) passed as parameters.
* Express's `next(err)` short-circuiting is modelled by returning an
  outcome value carrying the `AppError` message and status code.
-/

namespace DevTasks

/-- `ObjectId`, modelled as a natural number with decidable equality. -/
abbrev Id := Nat

/-! ## Schema validator (`validation.ts`, `validateBody`) -/

/-- A JavaScript runtime value as seen by `validateBody`. -/
inductive JSValue where
  | vstr (s : String)
  | vnum (n : Int)
  | vnan
  | vbool (b : Bool)
  | vnull
  | vundef
deriving DecidableEq, Repr

/-- The `type` tag of a validation rule. -/
inductive FieldType where
  | string
  | number
  | boolean
  | email
  | date
deriving DecidableEq, Repr

/-- One entry of a `ValidationSchema`: the per-field rule record.
`pattern` is an abstract predicate standing for `RegExp.test` on strings. -/
structure Rule where
  required : Bool := false
  type : Option FieldType := none
  minLength : Option Nat := none
  maxLength : Option Nat := none
  min : Option Int := none
  max : Option Int := none
  enum : Option (List String) := none
  pattern : Option (String → Bool) := none

/-- `value === undefined || value === null || value === ''` (the
absence test used by both the required check and the skip check). -/
def isAbsent : JSValue → Bool
  | .vundef => true
  | .vnull => true
  | .vstr s => s = ""
  | _ => false

/-- `typeof value === 'string'`. -/
def isStringV : JSValue → Bool
  | .vstr _ => true
  | _ => false

/-- `typeof value === 'number'` (NaN is a number in JS). -/
def isNumberV : JSValue → Bool
  | .vnum _ => true
  | .vnan => true
  | _ => false

/-- `Array.prototype.includes` of a `string[]` applied to an arbitrary
value: true only for an equal string element. -/
def enumContains (l : List String) : JSValue → Bool
  | .vstr s => l.contains s
  | _ => false

/-- The type check of `validateBody` (the `switch (rules.type)` block).
`emailTest` abstracts `emailRegex.test(value)` and `dateParse` abstracts
`!isNaN(Date.parse(value))`. -/
def typeErrors (emailTest dateParse : JSValue → Bool)
    (field : String) (r : Rule) (v : JSValue) : List String :=
  match r.type with
  | none => []
  | some .string =>
      if isStringV v then [] else [field ++ " must be a string"]
  | some .number =>
      match v with
      | .vnum _ => []
      | _ => [field ++ " must be a number"]
  | some .boolean =>
      match v with
      | .vbool _ => []
      | _ => [field ++ " must be a boolean"]
  | some .email =>
      if emailTest v then [] else [field ++ " must be a valid email address"]
  | some .date =>
      if dateParse v then [] else [field ++ " must be a valid date"]

/-- `rules.minLength && value.length < rules.minLength` (note the JS
truthiness guard: `minLength = 0` disables the check), applied only when
`typeof value === 'string'`. -/
def minLengthErrors (field : String) (r : Rule) (v : JSValue) : List String :=
  match v with
  | .vstr s =>
      match r.minLength with
      | some m => if m ≠ 0 ∧ s.length < m
          then [field ++ " must be at least " ++ toString m ++ " characters long"]
          else []
      | none => []
  | _ => []

/-- `rules.maxLength && value.length > rules.maxLength`. -/
def maxLengthErrors (field : String) (r : Rule) (v : JSValue) : List String :=
  match v with
  | .vstr s =>
      match r.maxLength with
      | some m => if m ≠ 0 ∧ s.length > m
          then [field ++ " must not exceed " ++ toString m ++ " characters"]
          else []
      | none => []
  | _ => []

/-- `rules.min !== undefined && value < rules.min` (here the code tests
`!== undefined`, so `min = 0` is active), applied only when
`typeof value === 'number'`; comparisons on NaN are false in JS, so `vnan`
produces nothing. -/
def minErrors (field : String) (r : Rule) (v : JSValue) : List String :=
  match v with
  | .vnum n =>
      match r.min with
      | some m => if n < m then [field ++ " must be at least " ++ toString m] else []
      | none => []
  | _ => []

/-- `rules.max !== undefined && value > rules.max`. -/
def maxErrors (field : String) (r : Rule) (v : JSValue) : List String :=
  match v with
  | .vnum n =>
      match r.max with
      | some m => if n > m then [field ++ " must not exceed " ++ toString m] else []
      | none => []
  | _ => []

/-- `rules.enum && !rules.enum.includes(value)`. -/
def enumErrors (field : String) (r : Rule) (v : JSValue) : List String :=
  match r.enum with
  | some l => if enumContains l v then []
      else [field ++ " must be one of: " ++ String.intercalate ", " l]
  | none => []

/-- `rules.pattern && typeof value === 'string' && !rules.pattern.test(value)`. -/
def patternErrors (field : String) (r : Rule) (v : JSValue) : List String :=
  match r.pattern, v with
  | some p, .vstr s => if p s then [] else [field ++ " format is invalid"]
  | _, _ => []

/-- The body of the per-field loop of `validateBody`: the required-check
short-circuit, the skip of absent optional fields, then every remaining
check in source order. -/
def fieldErrors (emailTest dateParse : JSValue → Bool)
    (field : String) (r : Rule) (v : JSValue) : List String :=
  if r.required ∧ isAbsent v then [field ++ " is required"]
  else if isAbsent v then []
  else
    typeErrors emailTest dateParse field r v
      ++ minLengthErrors field r v ++ maxLengthErrors field r v
      ++ minErrors field r v ++ maxErrors field r v
      ++ enumErrors field r v ++ patternErrors field r v

/-- `validateBody(schema)` applied to a request body: the loop over
`Object.entries(schema)` accumulating `errors.push(...)`. -/
def validateBody (emailTest dateParse : JSValue → Bool)
    (schema : List (String × Rule)) (body : String → JSValue) : List String :=
  schema.foldl
    (fun errors fr => errors ++ fieldErrors emailTest dateParse fr.1 fr.2 (body fr.1)) []

/-- The final aggregation: `next(new AppError('Validation failed: ...', 400))`
when any error accumulated, otherwise pass through. -/
def validateBodyOutcome (emailTest dateParse : JSValue → Bool)
    (schema : List (String × Rule)) (body : String → JSValue) :
    Option (String × Nat) :=
  let errors := validateBody emailTest dateParse schema body
  if errors.isEmpty then none
  else some ("Validation failed: " ++ String.intercalate "; " errors, 400)

/-- Number of individually-failing checks for one field: 1 for a failed
required-check, 0 for a skipped absent optional field, otherwise the count
of atomic checks (type, minLength, maxLength, min, max, enum, pattern)
whose message list is nonempty. -/
def fieldFailCount (emailTest dateParse : JSValue → Bool)
    (field : String) (r : Rule) (v : JSValue) : Nat :=
  if r.required ∧ isAbsent v then 1
  else if isAbsent v then 0
  else
    ([typeErrors emailTest dateParse field r v,
      minLengthErrors field r v, maxLengthErrors field r v,
      minErrors field r v, maxErrors field r v,
      enumErrors field r v, patternErrors field r v].countP
        fun l => ! l.isEmpty)

/-! ## Rate limiter (`validation.ts`, `rateLimit`) -/

/-- A rate-limit bucket: `{ count: number; resetTime: number }`. -/
structure Bucket where
  count : Nat
  resetTime : Nat
deriving DecidableEq, Repr

/-- The `clients` map, modelled as an insertion-ordered association list
(the iteration/update semantics of a JS `Map`). -/
abbrev RLState := List (String × Bucket)

/-- `Map.prototype.get`. -/
def rlGet (st : RLState) (ip : String) : Option Bucket :=
  match st.find? (fun e => e.1 = ip) with
  | some e => some e.2
  | none => none

/-- `Map.prototype.set`: update in place when the key exists, append
otherwise. -/
def rlSet (st : RLState) (ip : String) (b : Bucket) : RLState :=
  match st with
  | [] => [(ip, b)]
  | e :: rest => if e.1 = ip then (ip, b) :: rest else e :: rlSet rest ip b

/-- What one invocation of the rate-limit middleware does to the response:
the `setHeader` calls performed (name, value) and the error passed to
`next`, if any.  The source sets the three `X-RateLimit-*` headers only on
the allow path, after the 429 early return, so a rejection performs no
`setHeader` call. -/
structure RLResponse where
  headers : List (String × Int)
  errStatus : Option (String × Nat)
deriving DecidableEq, Repr

/-- One invocation of the middleware returned by
`rateLimit(windowMs, maxRequests)`, at time `now` for client `ip`:
(1) prune expired buckets, (2) get-or-create the caller's bucket,
(3) reject 429 when `count >= maxRequests` with the
`Math.ceil((resetTime - now) / 1000)` retry message, (4) otherwise
increment and set the informational headers.  (After pruning every
surviving bucket has `resetTime ≥ now`, so the `Nat` ceiling
`(d + 999) / 1000` matches `Math.ceil`.) -/
def rateLimitStep (windowMs maxRequests : Nat) (ip : String) (now : Nat)
    (clients : RLState) : RLState × RLResponse :=
  let clients := clients.filter fun e => ¬ now > e.2.resetTime
  let (clients, clientData) :=
    match rlGet clients ip with
    | some b => (clients, b)
    | none =>
        let b : Bucket := { count := 0, resetTime := now + windowMs }
        (rlSet clients ip b, b)
  if clientData.count ≥ maxRequests then
    let resetIn := (clientData.resetTime - now + 999) / 1000
    (clients,
      { headers := [],
        errStatus := some
          ("Too many requests. Try again in " ++ toString resetIn ++ " seconds.", 429) })
  else
    let newData : Bucket := { clientData with count := clientData.count + 1 }
    ( rlSet clients ip newData,
      { headers :=
          [("X-RateLimit-Limit", (maxRequests : Int)),
           ("X-RateLimit-Remaining", (maxRequests : Int) - (newData.count : Int)),
           ("X-RateLimit-Reset", (newData.resetTime : Int))],
        errStatus := none } )

/-- A sequence of invocations of the same middleware instance (the
closure shares one `clients` map), from the empty map: each request is a
(client ip, current time) pair. -/
def runRateLimit (windowMs maxRequests : Nat)
    (reqs : List (String × Nat)) : RLState × List RLResponse :=
  reqs.foldl
    (fun acc r =>
      let step := rateLimitStep windowMs maxRequests r.1 r.2 acc.1
      (step.1, acc.2 ++ [step.2]))
    ([], [])

/-! ## Authentication gate (`auth.ts`, `protect`) -/

/-- The failure class of `jwt.verify`.  In the `jsonwebtoken` library
`TokenExpiredError` is a subclass of `JsonWebTokenError`
(`TokenExpiredError.prototype = Object.create(JsonWebTokenError.prototype)`),
and `other` stands for any non-JWT exception escaping the `try` block
(e.g. a malformed `ObjectId`). -/
inductive JwtError where
  | invalid
  | expired
  | other
deriving DecidableEq, Repr

/-- `error instanceof jwt.JsonWebTokenError`: true for the base class and
for its subclass `TokenExpiredError`. -/
def JwtError.isJsonWebTokenError : JwtError → Bool
  | .invalid => true
  | .expired => true
  | .other => false

/-- `error instanceof jwt.TokenExpiredError`. -/
def JwtError.isTokenExpiredError : JwtError → Bool
  | .expired => true
  | _ => false

/-- The decoded JWT payload; only `userId` is read by `protect`. -/
structure JwtPayload where
  userId : Id
deriving DecidableEq, Repr

/-- The user record resolved from the `users` collection, restricted to
the fields `protect` and the access gates read. -/
structure UserRec where
  _id : Id
  role : String
  isActive : Bool
  directReports : List Id
deriving DecidableEq, Repr

/-- Outcome of an authentication / access middleware: either
`next(new AppError(message, status))` or success. -/
inductive GateOutcome where
  | err (message : String) (status : Nat)
  | ok (user : UserRec)
deriving DecidableEq, Repr

/-- JS `String.prototype.split` with a single-character separator,
modelled by structural recursion over the character list (e.g.
`"a b" → ["a", "b"]`, `"Bearer " → ["Bearer", ""]`). -/
def splitOnChar (c : Char) : List Char → List (List Char)
  | [] => [[]]
  | x :: xs =>
      let r := splitOnChar c xs
      if x = c then [] :: r
      else
        match r with
        | y :: ys => (x :: y) :: ys
        | [] => [[x]]

/-- `List` version of `String.prototype.startsWith`. -/
def listStart : List Char → List Char → Bool
  | [], _ => true
  | _ :: _, [] => false
  | a :: as, b :: bs => a = b && listStart as bs

/-- `header.startsWith('Bearer')`. -/
def strStart (pre s : String) : Bool :=
  listStart pre.data s.data

/-- `protect`: extract the bearer token, verify it, resolve and check the
user.  `verify` abstracts `jwt.verify(token, secret)` and `findUser`
abstracts `db.collection('users').findOne({_id})`.  JS `if (!token)`
treats both a missing and an empty-string token as absent (splitting
`"Bearer "` yields `""`). -/
def protect (authHeader : Option String) (jwtSecret : Option String)
    (verify : String → String → Except JwtError JwtPayload)
    (findUser : Id → Option UserRec) : GateOutcome :=
  let token : Option String :=
    match authHeader with
    | some h =>
        if strStart "Bearer" h then
          ((splitOnChar ' ' h.data).map fun l => String.mk l)[1]?
        else none
    | none => none
  match token with
  | none => .err "You are not logged in! Please log in to get access." 401
  | some t =>
    if t = "" then .err "You are not logged in! Please log in to get access." 401
    else
      match jwtSecret with
      | none => .err "JWT secret not configured" 500
      | some secret =>
        match verify t secret with
        | .error e =>
            if e.isJsonWebTokenError then
              .err "Invalid token. Please log in again." 401
            else if e.isTokenExpiredError then
              .err "Your token has expired. Please log in again." 401
            else
              .err "Authentication failed" 401
        | .ok payload =>
            match findUser payload.userId with
            | none => .err "The user belonging to this token no longer exists." 401
            | some user =>
                if ¬ user.isActive then
                  .err "Your account has been deactivated. Please contact support." 401
                else
                  .ok user

/-! ## Resource-access gate (`auth.ts`, `checkResourceAccess`) -/

/-- The fields of a `projects` document read by the gate. -/
structure Project where
  pmId : Id
  apmId : Id
  teamLeadId : Id
  teamMembers : List Id
deriving DecidableEq, Repr

/-- The fields of a `tasks` document read by the gate. -/
structure TaskRec where
  assignedTo : Id
  projectId : Id
deriving DecidableEq, Repr

/-- The fields of a target `users` document read by the gate. -/
structure TargetUser where
  _id : Id
  reportsTo : Option Id
deriving DecidableEq, Repr

/-- The `resourceType` tag. -/
inductive ResourceType where
  | project
  | task
  | user
deriving DecidableEq, Repr

/-- Outcome of `checkResourceAccess`: `next()` (grant) or
`next(new AppError(message, status))`. -/
inductive AccessOutcome where
  | grant
  | err (message : String) (status : Nat)
deriving DecidableEq, Repr

/-- `checkResourceAccess(resourceType)` applied to a request: `user?` is
`req.user`, `resourceId` is `req.params.id`, and the three lookups
abstract the `findOne` calls on the `projects`, `tasks` and `users`
collections.  In the task branch, `taskProject?.pmId.equals(...)` is
optional chaining: it is `undefined` (falsy) when the parent project
lookup returned nothing. -/
def checkResourceAccess (resourceType : ResourceType)
    (user? : Option UserRec) (resourceId : Id)
    (findProject : Id → Option Project) (findTask : Id → Option TaskRec)
    (findTargetUser : Id → Option TargetUser) : AccessOutcome :=
  match user? with
  | none => .err "User not authenticated" 401
  | some user =>
    if user.role = "CEO" then .grant
    else
      match resourceType with
      | .project =>
        match findProject resourceId with
        | none => .err "Project not found" 404
        | some project =>
          let hasProjectAccess :=
            project.pmId == user._id ||
            project.apmId == user._id ||
            project.teamLeadId == user._id ||
            project.teamMembers.any fun memberId => memberId == user._id
          if hasProjectAccess then .grant
          else .err "You do not have access to this project" 403
      | .task =>
        match findTask resourceId with
        | none => .err "Task not found" 404
        | some task =>
          let taskProject := findProject task.projectId
          let hasTaskAccess :=
            task.assignedTo == user._id ||
            (match taskProject with
             | some p => p.pmId == user._id || p.apmId == user._id ||
                 p.teamLeadId == user._id
             | none => false)
          if hasTaskAccess then .grant
          else .err "You do not have access to this task" 403
      | .user =>
        if resourceId = user._id then .grant
        else
          match findTargetUser resourceId with
          | none => .err "User not found" 404
          | some targetUser =>
            let hasUserAccess :=
              (match targetUser.reportsTo with
               | some r => r == user._id
               | none => false) ||
              user.directReports.any fun reportId => reportId == targetUser._id
            if hasUserAccess then .grant
            else .err "You do not have access to this user" 403

/-! ## Error normalizer (`errorHandler.ts`) -/

/-- An `AppError`-shaped error as consumed by the two senders. -/
structure ErrRec where
  statusCode : Nat
  status : String
  message : String
  stack : String
  isOperational : Bool
deriving DecidableEq, Repr

/-- The JSON response body sent to the client (`timestamp` abstracted
away); `errorObj` and `stack` are present only in the verbose body. -/
structure ErrResponse where
  statusCode : Nat
  status : String
  message : String
  errorObj : Option ErrRec
  stack : Option String
deriving DecidableEq, Repr

/-- `new AppError(message, statusCode)`: status is "fail" for a code
whose decimal representation starts with '4', "error" otherwise;
`isOperational` is always set true. -/
def mkAppError (message : String) (statusCode : Nat) : ErrRec :=
  { statusCode := statusCode
    status := if (toString statusCode).startsWith "4" then "fail" else "error"
    message := message
    stack := ""
    isOperational := true }

/-- `sendErrorDev`: the verbose response (raw error object and stack
included).  The second component is the list of errors logged server-side
by this sender: there is no logging statement in `sendErrorDev`. -/
def sendErrorDev (err : ErrRec) : ErrResponse × List ErrRec :=
  ({ statusCode := err.statusCode
     status := err.status
     message := err.message
     errorObj := some err
     stack := some err.stack }, [])

/-- `sendErrorProd`: operational errors surface their own message;
anything else is logged via `console.error` and answered with the fixed
generic 500 body. -/
def sendErrorProd (err : ErrRec) : ErrResponse × List ErrRec :=
  if err.isOperational then
    ({ statusCode := err.statusCode
       status := err.status
       message := err.message
       errorObj := none
       stack := none }, [])
  else
    ({ statusCode := 500
       status := "error"
       message := "Something went wrong!"
       errorObj := none
       stack := none }, [err])

/-- A raw error reaching `errorHandler`, before normalization: Mongo
errors carry `code`/`keyValue`, Mongoose validation errors carry
`errors`, JWT errors are identified by `name`.  `isOperational` is false
for anything that is not an `AppError`. -/
structure RawErr where
  statusCode : Option Nat
  status : Option String
  message : String
  stack : String
  isOperational : Bool
  code : Option Nat
  name : String
  keyValue : List (String × String)
  errors : List String
deriving DecidableEq, Repr

/-- `process.env.NODE_ENV` as read by `errorHandler`. -/
inductive NodeEnv where
  | development
  | production
deriving DecidableEq, Repr

/-- `handleDuplicateKeyError`: extract the first conflicting field/value
pair (`Object.keys(err.keyValue)[0]`); an empty `keyValue` yields the JS
string `"undefined"` for both. -/
def handleDuplicateKeyError (err : RawErr) : ErrRec :=
  let fv := err.keyValue.headD ("undefined", "undefined")
  mkAppError (fv.1 ++ " '" ++ fv.2 ++ "' already exists. Please choose another value.") 400

/-- `handleValidationError`: join the per-field messages. -/
def handleValidationError (err : RawErr) : ErrRec :=
  mkAppError ("Invalid input data. " ++ String.intercalate ". " err.errors) 400

/-- `handleJWTError`. -/
def handleJWTError : ErrRec :=
  mkAppError "Invalid token. Please log in again." 401

/-- `handleJWTExpiredError`. -/
def handleJWTExpiredError : ErrRec :=
  mkAppError "Your token has expired. Please log in again." 401

/-- `errorHandler`: default the status code and classification
(JS `||`, so `0` and `""` also default), then dispatch on the
environment; in production, pattern-match known driver/library errors
into operational `AppError`s before `sendErrorProd`.  Returns the client
response and the list of errors logged server-side. -/
def errorHandler (env : NodeEnv) (err : RawErr) : ErrResponse × List ErrRec :=
  let statusCode := match err.statusCode with
    | some n => if n = 0 then 500 else n
    | none => 500
  let status := match err.status with
    | some s => if s = "" then "error" else s
    | none => "error"
  let errA : ErrRec :=
    { statusCode := statusCode
      status := status
      message := err.message
      stack := err.stack
      isOperational := err.isOperational }
  match env with
  | .development => sendErrorDev errA
  | .production =>
    let error := errA
    let error := if err.code = some 11000 then handleDuplicateKeyError err else error
    let error := if err.name = "ValidationError" then handleValidationError err else error
    let error := if err.name = "JsonWebTokenError" then handleJWTError else error
    let error := if err.name = "TokenExpiredError" then handleJWTExpiredError else error
    sendErrorProd error

/-! ## Helper lemmas -/

theorem foldl_append_eq_flatten {α β : Type} (f : α → List β) (l : List α)
    (init : List β) :
    l.foldl (fun acc a => acc ++ f a) init = init ++ (l.map f).flatten := by
  induction l generalizing init with
  | nil => simp
  | cons a t ih => simp [ih, List.append_assoc]

theorem validateBody_eq_flatten (et dp : JSValue → Bool)
    (schema : List (String × Rule)) (body : String → JSValue) :
    validateBody et dp schema body
      = (schema.map fun fr => fieldErrors et dp fr.1 fr.2 (body fr.1)).flatten := by
  unfold validateBody
  rw [foldl_append_eq_flatten]
  simp

theorem typeErrors_length_le_one (et dp : JSValue → Bool) (f : String)
    (r : Rule) (v : JSValue) : (typeErrors et dp f r v).length ≤ 1 := by
  unfold typeErrors
  rcases r.type with _ | t
  · simp
  · cases t <;> cases v <;> simp <;> split <;> simp

theorem minLengthErrors_length_le_one (f : String) (r : Rule) (v : JSValue) :
    (minLengthErrors f r v).length ≤ 1 := by
  unfold minLengthErrors
  cases v <;> simp
  rcases r.minLength with _ | m
  · simp
  · simp only []
    split <;> simp

theorem maxLengthErrors_length_le_one (f : String) (r : Rule) (v : JSValue) :
    (maxLengthErrors f r v).length ≤ 1 := by
  unfold maxLengthErrors
  cases v <;> simp
  rcases r.maxLength with _ | m
  · simp
  · simp only []
    split <;> simp

theorem minErrors_length_le_one (f : String) (r : Rule) (v : JSValue) :
    (minErrors f r v).length ≤ 1 := by
  unfold minErrors
  cases v <;> simp
  rcases r.min with _ | m
  · simp
  · simp only []
    split <;> simp

theorem maxErrors_length_le_one (f : String) (r : Rule) (v : JSValue) :
    (maxErrors f r v).length ≤ 1 := by
  unfold maxErrors
  cases v <;> simp
  rcases r.max with _ | m
  · simp
  · simp only []
    split <;> simp

theorem enumErrors_length_le_one (f : String) (r : Rule) (v : JSValue) :
    (enumErrors f r v).length ≤ 1 := by
  unfold enumErrors
  rcases r.enum with _ | l
  · simp
  · simp only []
    split <;> simp

theorem patternErrors_length_le_one (f : String) (r : Rule) (v : JSValue) :
    (patternErrors f r v).length ≤ 1 := by
  unfold patternErrors
  rcases hp : r.pattern with _ | p
  · cases v <;> simp
  · cases v <;> simp
    split <;> simp

theorem length_of_le_one (l : List String) (h : l.length ≤ 1) :
    l.length = if (! l.isEmpty) = true then 1 else 0 := by
  cases l with
  | nil => simp
  | cons a t =>
    cases t with
    | nil => simp
    | cons b u => simp at h

theorem fieldErrors_length (et dp : JSValue → Bool) (f : String) (r : Rule)
    (v : JSValue) :
    (fieldErrors et dp f r v).length = fieldFailCount et dp f r v := by
  unfold fieldErrors fieldFailCount
  split
  · simp
  · split
    · simp
    · simp only [List.length_append, List.countP_cons, List.countP_nil]
      rw [length_of_le_one _ (typeErrors_length_le_one et dp f r v),
        length_of_le_one _ (minLengthErrors_length_le_one f r v),
        length_of_le_one _ (maxLengthErrors_length_le_one f r v),
        length_of_le_one _ (minErrors_length_le_one f r v),
        length_of_le_one _ (maxErrors_length_le_one f r v),
        length_of_le_one _ (enumErrors_length_le_one f r v),
        length_of_le_one _ (patternErrors_length_le_one f r v)]
      omega

theorem validateBody_length_eq_sum (et dp : JSValue → Bool)
    (schema : List (String × Rule)) (body : String → JSValue) :
    (validateBody et dp schema body).length
      = (schema.map fun fr => fieldFailCount et dp fr.1 fr.2 (body fr.1)).sum := by
  rw [validateBody_eq_flatten, List.length_flatten, List.map_map]
  congr 1
  apply List.map_congr_left
  intro fr _
  exact fieldErrors_length et dp fr.1 fr.2 (body fr.1)

/-! ## Claim theorems -/

/-- C4: for every rule set and payload, `validateBody`'s violation list is
the concatenation, in declared field order, of the per-field message
lists; once the required-check and presence-check pass for a field, the
field's messages are exactly the concatenation of all remaining atomic
checks (type, minLength, maxLength, min, max, enum, pattern), none
skipped; the total message count equals the number of individually-failing
checks across all fields; and the output is empty exactly when no check
fails (so a payload satisfying every rule yields "valid").  Purity —
repeating validation gives the same result — is definitional here:
`validateBody` is a function of the rule set and payload alone. -/
theorem validateBody_spec (et dp : JSValue → Bool)
    (schema : List (String × Rule)) (body : String → JSValue) :
    validateBody et dp schema body
      = (schema.map fun fr => fieldErrors et dp fr.1 fr.2 (body fr.1)).flatten
    ∧ (∀ f r v, isAbsent v = false →
        fieldErrors et dp f r v
          = typeErrors et dp f r v ++ minLengthErrors f r v ++ maxLengthErrors f r v
            ++ minErrors f r v ++ maxErrors f r v ++ enumErrors f r v ++ patternErrors f r v)
    ∧ (validateBody et dp schema body).length
        = (schema.map fun fr => fieldFailCount et dp fr.1 fr.2 (body fr.1)).sum
    ∧ (validateBody et dp schema body = []
        ↔ ∀ fr ∈ schema, fieldFailCount et dp fr.1 fr.2 (body fr.1) = 0) := by
  refine ⟨validateBody_eq_flatten et dp schema body, ?_, validateBody_length_eq_sum et dp schema body, ?_⟩
  · intro f r v hv
    unfold fieldErrors
    rw [if_neg, if_neg]
    · simp [hv]
    · simp [hv]
  · rw [← List.length_eq_zero, validateBody_length_eq_sum]
    rw [List.sum_eq_zero_iff]
    constructor
    · intro h fr hfr
      exact h _ (List.mem_map_of_mem _ hfr)
    · intro h n hn
      rcases List.mem_map.mp hn with ⟨fr, hfr, rfl⟩
      exact h fr hfr

/-- Witness for C4 at a concrete rule set and payload: a payload
satisfying every rule validates to the empty error list, and a
present-value field's messages decompose into the atomic checks. -/
theorem validateBody_spec_witness :
    validateBody (fun _ => true) (fun _ => true)
      [("email", { required := true, type := some .email }),
       ("age", { type := some .number, min := some 18 })]
      (fun f => if f = "email" then .vstr "a@b.com" else .vnum 30) = []
    ∧ fieldErrors (fun _ => true) (fun _ => true) "age"
        { type := some .number, min := some 18 } (.vnum 30)
      = typeErrors (fun _ => true) (fun _ => true) "age"
          { type := some .number, min := some 18 } (.vnum 30)
        ++ minLengthErrors "age" { type := some .number, min := some 18 } (.vnum 30)
        ++ maxLengthErrors "age" { type := some .number, min := some 18 } (.vnum 30)
        ++ minErrors "age" { type := some .number, min := some 18 } (.vnum 30)
        ++ maxErrors "age" { type := some .number, min := some 18 } (.vnum 30)
        ++ enumErrors "age" { type := some .number, min := some 18 } (.vnum 30)
        ++ patternErrors "age" { type := some .number, min := some 18 } (.vnum 30) := by
  constructor
  · exact (validateBody_spec (fun _ => true) (fun _ => true)
      [("email", { required := true, type := some .email }),
       ("age", { type := some .number, min := some 18 })]
      (fun f => if f = "email" then .vstr "a@b.com" else .vnum 30)).2.2.2.mpr
      (by
        intro fr hfr
        simp only [List.mem_cons, List.mem_singleton, List.not_mem_nil] at hfr
        rcases hfr with h | h | h
        · subst h; rfl
        · subst h; rfl
        · exact absurd h (by simp))
  · exact (validateBody_spec (fun _ => true) (fun _ => true) [] (fun _ => .vundef)).2.1
      "age" { type := some .number, min := some 18 } (.vnum 30) rfl

/-- C9: a field whose value is the empty string and whose rule is not
required contributes no violation messages at all — the empty string is
treated like an absent value, so type, minLength, enum and pattern checks
are all skipped (the rule is arbitrary, so this holds even when the empty
string would violate them), and removing such a field from the schema
leaves the validator's output unchanged. -/
theorem validateBody_empty_optional_skipped (et dp : JSValue → Bool)
    (f : String) (r : Rule) (body : String → JSValue)
    (pre post : List (String × Rule))
    (hr : r.required = false) (hb : body f = .vstr "") :
    fieldErrors et dp f r (body f) = []
    ∧ validateBody et dp (pre ++ (f, r) :: post) body
        = validateBody et dp (pre ++ post) body := by
  have hfe : fieldErrors et dp f r (body f) = [] := by
    rw [hb]
    unfold fieldErrors
    rw [if_neg, if_pos]
    · simp [isAbsent]
    · simp [hr, isAbsent]
  refine ⟨hfe, ?_⟩
  rw [validateBody_eq_flatten, validateBody_eq_flatten]
  simp only [List.map_append, List.map_cons, List.flatten_append, List.flatten_cons]
  rw [hfe]
  simp

/-- Witness for C9 at a concrete rule whose type, minLength, enum and
pattern would all reject the empty string. -/
theorem validateBody_empty_optional_skipped_witness :
    fieldErrors (fun _ => false) (fun _ => false) "nick"
      { type := some .email, minLength := some 5, enum := some ["x"],
        pattern := some fun _ => false }
      ((fun _ => JSValue.vstr "") "nick") = []
    ∧ validateBody (fun _ => false) (fun _ => false)
        ([] ++ ("nick",
          { type := some .email, minLength := some 5, enum := some ["x"],
            pattern := some fun _ => false }) :: [])
        (fun _ => JSValue.vstr "")
      = validateBody (fun _ => false) (fun _ => false) ([] ++ [])
        (fun _ => JSValue.vstr "") :=
  validateBody_empty_optional_skipped (fun _ => false) (fun _ => false)
    "nick"
    { type := some .email, minLength := some 5, enum := some ["x"],
      pattern := some fun _ => false }
    (fun _ => JSValue.vstr "") [] [] rfl rfl

/-- C5: with window 1000 ms and maximum 3, four requests from the same
client within one window yield allow (remaining 2), allow (1), allow (0),
then reject 429 with the retry-after message computed from the remaining
window (`ceil(700/1000) = 1` second); a fifth request after the window has
elapsed is allowed again, the expired bucket having been pruned during
that same invocation and replaced by a fresh bucket whose count is reset
to 1 (and whose reset time is the new `now + window`). -/
theorem rateLimit_window_scenario :
    runRateLimit 1000 3 [("ip", 0), ("ip", 100), ("ip", 200), ("ip", 300), ("ip", 1100)]
      = ([("ip", { count := 1, resetTime := 2100 })],
         [{ headers := [("X-RateLimit-Limit", 3), ("X-RateLimit-Remaining", 2),
              ("X-RateLimit-Reset", 1000)], errStatus := none },
          { headers := [("X-RateLimit-Limit", 3), ("X-RateLimit-Remaining", 1),
              ("X-RateLimit-Reset", 1000)], errStatus := none },
          { headers := [("X-RateLimit-Limit", 3), ("X-RateLimit-Remaining", 0),
              ("X-RateLimit-Reset", 1000)], errStatus := none },
          { headers := [],
            errStatus := some ("Too many requests. Try again in 1 seconds.", 429) },
          { headers := [("X-RateLimit-Limit", 3), ("X-RateLimit-Remaining", 2),
              ("X-RateLimit-Reset", 2100)], errStatus := none }]) := by
  decide

/-- C8 counterexample: in the very scenario of the specification
(window 1000 ms, maximum 3, four requests in one window), the fourth
response is the 429 rejection and it carries no headers at all — the
source sets the `X-RateLimit-*` headers only after the 429 early return,
so the claim that every rate-limit response carries them is false. -/
theorem rateLimit_reject_carries_no_headers :
    ((runRateLimit 1000 3 [("ip", 0), ("ip", 100), ("ip", 200), ("ip", 300)]).2)[3]?
      = some { headers := [],
               errStatus := some ("Too many requests. Try again in 1 seconds.", 429) } := by
  decide

/-- C8 (amended): every allowed response of the rate limiter carries
exactly the `X-RateLimit-Limit`, `X-RateLimit-Remaining` and
`X-RateLimit-Reset` headers, while the 429 rejection carries none. -/
theorem rateLimit_headers_on_allow (w m : Nat) (ip : String) (now : Nat)
    (st : RLState) :
    ((rateLimitStep w m ip now st).2.errStatus = none →
      (rateLimitStep w m ip now st).2.headers.map Prod.fst
        = ["X-RateLimit-Limit", "X-RateLimit-Remaining", "X-RateLimit-Reset"])
    ∧ ((rateLimitStep w m ip now st).2.errStatus ≠ none →
      (rateLimitStep w m ip now st).2.headers = []) := by
  unfold rateLimitStep
  dsimp only
  rcases hg : rlGet (List.filter (fun e => decide ¬ now > e.2.resetTime) st) ip with _ | b <;>
    simp only [hg] <;> split <;> simp

/-- Witness for the amended C8 at a concrete allowed invocation. -/
theorem rateLimit_headers_on_allow_witness :
    (rateLimitStep 1000 3 "ip" 0 []).2.headers.map Prod.fst
      = ["X-RateLimit-Limit", "X-RateLimit-Remaining", "X-RateLimit-Reset"] :=
  (rateLimit_headers_on_allow 1000 3 "ip" 0 []).1 (by decide)

theorem mem_rlSet {st : RLState} {ip : String} {b : Bucket}
    {e : String × Bucket} (h : e ∈ rlSet st ip b) : e.2 = b ∨ e ∈ st := by
  induction st with
  | nil =>
    simp only [rlSet, List.mem_singleton] at h
    exact Or.inl (by rw [h])
  | cons a t ih =>
    simp only [rlSet] at h
    split at h
    · rcases List.mem_cons.mp h with h1 | h1
      · exact Or.inl (by rw [h1])
      · exact Or.inr (List.mem_cons_of_mem _ h1)
    · rcases List.mem_cons.mp h with h1 | h1
      · exact Or.inr (h1 ▸ List.mem_cons_self _ _)
      · rcases ih h1 with h2 | h2
        · exact Or.inl h2
        · exact Or.inr (List.mem_cons_of_mem _ h2)

theorem rlGet_mem {st : RLState} {ip : String} {b : Bucket}
    (h : rlGet st ip = some b) : ∃ e ∈ st, e.2 = b := by
  unfold rlGet at h
  rcases hf : st.find? (fun e => e.1 = ip) with _ | e
  · rw [hf] at h; exact absurd h (by simp)
  · rw [hf] at h
    simp only [Option.some.injEq] at h
    exact ⟨e, List.mem_of_find?_eq_some hf, h⟩

/-- One rate-limiter invocation preserves the bucket invariant
`count ≤ maxRequests` and produces only non-negative
`X-RateLimit-Remaining` header values. -/
theorem rateLimitStep_preserves (w m : Nat) (ip : String) (now : Nat)
    (st : RLState) (hinv : ∀ e ∈ st, e.2.count ≤ m) :
    (∀ e ∈ (rateLimitStep w m ip now st).1, e.2.count ≤ m)
    ∧ (∀ hv ∈ (rateLimitStep w m ip now st).2.headers, 0 ≤ hv.2) := by
  unfold rateLimitStep
  dsimp only
  have hfilt : ∀ e ∈ List.filter (fun e => decide ¬ now > e.2.resetTime) st,
      e.2.count ≤ m :=
    fun e he => hinv e (List.mem_filter.mp he).1
  rcases hg : rlGet (List.filter (fun e => decide ¬ now > e.2.resetTime) st) ip
      with _ | b
  · simp only [hg]
    split
    · refine ⟨?_, by simp⟩
      intro e he
      rcases mem_rlSet he with h1 | h1
      · rw [h1]; exact Nat.zero_le m
      · exact hfilt e h1
    · rename_i hc
      constructor
      · intro e he
        rcases mem_rlSet he with h1 | h1
        · rw [h1]; dsimp; omega
        · rcases mem_rlSet h1 with h2 | h2
          · rw [h2]; exact Nat.zero_le m
          · exact hfilt e h2
      · intro hv hhv
        simp only [List.mem_cons, List.not_mem_nil, or_false] at hhv
        rcases hhv with h1 | h1 | h1 <;> rw [h1] <;> dsimp <;> omega
  · rcases rlGet_mem hg with ⟨e0, he0, hb⟩
    have hble : b.count ≤ m := hb ▸ hfilt e0 he0
    simp only [hg]
    split
    · exact ⟨hfilt, by simp⟩
    · rename_i hc
      constructor
      · intro e he
        rcases mem_rlSet he with h1 | h1
        · rw [h1]; dsimp; omega
        · exact hfilt e h1
      · intro hv hhv
        simp only [List.mem_cons, List.not_mem_nil, or_false] at hhv
        rcases hhv with h1 | h1 | h1 <;> rw [h1] <;> dsimp <;> omega

theorem runRateLimit_aux (w m : Nat) (reqs : List (String × Nat))
    (st : RLState) (resps : List RLResponse)
    (hinv : ∀ e ∈ st, e.2.count ≤ m)
    (hresp : ∀ resp ∈ resps, ∀ hv ∈ resp.headers, 0 ≤ hv.2) :
    (∀ e ∈ (reqs.foldl
        (fun acc r =>
          let step := rateLimitStep w m r.1 r.2 acc.1
          (step.1, acc.2 ++ [step.2])) (st, resps)).1, e.2.count ≤ m)
    ∧ (∀ resp ∈ (reqs.foldl
        (fun acc r =>
          let step := rateLimitStep w m r.1 r.2 acc.1
          (step.1, acc.2 ++ [step.2])) (st, resps)).2,
        ∀ hv ∈ resp.headers, 0 ≤ hv.2) := by
  induction reqs generalizing st resps with
  | nil => exact ⟨hinv, hresp⟩
  | cons r t ih =>
    simp only [List.foldl_cons]
    apply ih
    · exact (rateLimitStep_preserves w m r.1 r.2 st hinv).1
    · intro resp hmem hv hhv
      rcases List.mem_append.mp hmem with h | h
      · exact hresp resp h hv hhv
      · rw [List.mem_singleton.mp h] at hhv
        exact (rateLimitStep_preserves w m r.1 r.2 st hinv).2 hv hhv

/-- C10: for every sequence of invocations of one rate-limiter instance
(started from the empty client map), every bucket in the map satisfies
`count ≤ maxRequests` — the count is incremented only when strictly below
the maximum — and consequently every `X-RateLimit-Remaining` header value
(`maxRequests - count`, computed in `Int`) on an allowed response is
non-negative. -/
theorem rateLimit_count_invariant (w m : Nat) (reqs : List (String × Nat)) :
    (∀ e ∈ (runRateLimit w m reqs).1, e.2.count ≤ m)
    ∧ (∀ resp ∈ (runRateLimit w m reqs).2, ∀ hv ∈ resp.headers,
        hv.1 = "X-RateLimit-Remaining" → 0 ≤ hv.2) := by
  unfold runRateLimit
  have h := runRateLimit_aux w m reqs [] [] (by simp) (by simp)
  exact ⟨h.1, fun resp hr hv hhv _ => h.2 resp hr hv hhv⟩

/-- Witness for C10: reading the remaining-header value off a concrete
allowed response of a concrete run. -/
theorem rateLimit_count_invariant_witness :
    (0 : Int) ≤ (("X-RateLimit-Remaining", (2 : Int)) : String × Int).2 :=
  (rateLimit_count_invariant 1000 3 [("ip", 0)]).2
    { headers := [("X-RateLimit-Limit", 3), ("X-RateLimit-Remaining", 2),
        ("X-RateLimit-Reset", 1000)], errStatus := none }
    (by decide) ("X-RateLimit-Remaining", 2) (by decide) rfl

/-- C1: for the resource-access gate with the project kind and an
authenticated principal: a CEO is granted access to any project
identifier regardless of membership; otherwise a missing project fails
404; an existing project grants access exactly when the principal is the
pmId, apmId, teamLeadId, or one of the teamMembers, and fails 403
otherwise. -/
theorem checkResourceAccess_project_spec (user : UserRec) (rid : Id)
    (fp : Id → Option Project) (ft : Id → Option TaskRec)
    (fu : Id → Option TargetUser) :
    (user.role = "CEO" →
      checkResourceAccess .project (some user) rid fp ft fu = .grant)
    ∧ (user.role ≠ "CEO" → fp rid = none →
      checkResourceAccess .project (some user) rid fp ft fu
        = .err "Project not found" 404)
    ∧ (∀ project, user.role ≠ "CEO" → fp rid = some project →
      ((checkResourceAccess .project (some user) rid fp ft fu = .grant
          ↔ project.pmId = user._id ∨ project.apmId = user._id
            ∨ project.teamLeadId = user._id ∨ user._id ∈ project.teamMembers)
       ∧ (¬ (project.pmId = user._id ∨ project.apmId = user._id
            ∨ project.teamLeadId = user._id ∨ user._id ∈ project.teamMembers) →
          checkResourceAccess .project (some user) rid fp ft fu
            = .err "You do not have access to this project" 403))) := by
  refine ⟨fun hceo => by simp [checkResourceAccess, hceo], ?_, ?_⟩
  · intro hceo hnone
    simp [checkResourceAccess, hceo, hnone]
  · intro project hceo hsome
    have hbool :
        ((project.pmId == user._id || project.apmId == user._id ||
          project.teamLeadId == user._id) ||
          project.teamMembers.any fun memberId => memberId == user._id) = true
        ↔ (project.pmId = user._id ∨ project.apmId = user._id
            ∨ project.teamLeadId = user._id ∨ user._id ∈ project.teamMembers) := by
      simp only [Bool.or_eq_true, List.any_eq_true, beq_iff_eq, or_assoc]
      constructor
      · rintro (h | h | h | ⟨x, hx, rfl⟩)
        · exact Or.inl h
        · exact Or.inr (Or.inl h)
        · exact Or.inr (Or.inr (Or.inl h))
        · exact Or.inr (Or.inr (Or.inr hx))
      · rintro (h | h | h | h)
        · exact Or.inl h
        · exact Or.inr (Or.inl h)
        · exact Or.inr (Or.inr (Or.inl h))
        · exact Or.inr (Or.inr (Or.inr ⟨user._id, h, rfl⟩))
    by_cases hrel : project.pmId = user._id ∨ project.apmId = user._id
        ∨ project.teamLeadId = user._id ∨ user._id ∈ project.teamMembers
    · have hb := hbool.mpr hrel
      constructor
      · simp [checkResourceAccess, hceo, hsome, hb, hrel]
      · intro h; exact absurd hrel h
    · have hb : ((project.pmId == user._id || project.apmId == user._id ||
          project.teamLeadId == user._id) ||
          project.teamMembers.any fun memberId => memberId == user._id) = false := by
        rcases hbb : ((project.pmId == user._id || project.apmId == user._id ||
          project.teamLeadId == user._id) ||
          project.teamMembers.any fun memberId => memberId == user._id) with _ | _
        · rfl
        · exact absurd (hbool.mp hbb) hrel
      constructor
      · simp [checkResourceAccess, hceo, hsome, hb, hrel]
      · intro _
        simp [checkResourceAccess, hceo, hsome, hb]

/-- Witness for C1: a team-lead principal (not the manager) is granted
access to an existing project, via the grant-iff-membership direction. -/
theorem checkResourceAccess_project_spec_witness :
    checkResourceAccess .project
      (some { _id := 1, role := "TEAM_LEADER", isActive := true, directReports := [] }) 7
      (fun i => if i = 7 then
          some { pmId := 2, apmId := 3, teamLeadId := 1, teamMembers := [4] }
        else none)
      (fun _ => none) (fun _ => none) = .grant :=
  ((checkResourceAccess_project_spec
      { _id := 1, role := "TEAM_LEADER", isActive := true, directReports := [] } 7
      (fun i => if i = 7 then
          some { pmId := 2, apmId := 3, teamLeadId := 1, teamMembers := [4] }
        else none)
      (fun _ => none) (fun _ => none)).2.2
    { pmId := 2, apmId := 3, teamLeadId := 1, teamMembers := [4] }
    (by decide) (by decide)).1.mpr (by decide)

/-- C3: for the task kind, a non-CEO principal and an existing task whose
parent project lookup returns nothing, access is granted if and only if
the principal is the task's assignee, and the non-assignee case is the
operational 403 rejection (not the 500 defect path). -/
theorem checkResourceAccess_task_degraded (user : UserRec) (rid : Id)
    (task : TaskRec) (fp : Id → Option Project) (ft : Id → Option TaskRec)
    (fu : Id → Option TargetUser)
    (hceo : user.role ≠ "CEO") (htask : ft rid = some task)
    (hproj : fp task.projectId = none) :
    (checkResourceAccess .task (some user) rid fp ft fu = .grant
      ↔ task.assignedTo = user._id)
    ∧ (task.assignedTo ≠ user._id →
      checkResourceAccess .task (some user) rid fp ft fu
        = .err "You do not have access to this task" 403) := by
  constructor
  · by_cases ha : task.assignedTo = user._id
    · simp [checkResourceAccess, hceo, htask, hproj, ha]
    · simp [checkResourceAccess, hceo, htask, hproj, ha]
  · intro ha
    simp [checkResourceAccess, hceo, htask, hproj, ha]

/-- Witness for C3: the assignee keeps access to a task whose parent
project no longer exists, at concrete inputs. -/
theorem checkResourceAccess_task_degraded_witness :
    checkResourceAccess .task
      (some { _id := 5, role := "SOFTWARE_ENGINEER", isActive := true,
              directReports := [] }) 9
      (fun _ => none)
      (fun i => if i = 9 then some { assignedTo := 5, projectId := 77 } else none)
      (fun _ => none) = .grant :=
  (checkResourceAccess_task_degraded
      { _id := 5, role := "SOFTWARE_ENGINEER", isActive := true, directReports := [] }
      9 { assignedTo := 5, projectId := 77 }
      (fun _ => none)
      (fun i => if i = 9 then some { assignedTo := 5, projectId := 77 } else none)
      (fun _ => none)
      (by decide) (by decide) (by decide)).1.mpr rfl

/-- C2 (divergence witness): because `jwt.TokenExpiredError` is a
subclass of `jwt.JsonWebTokenError`, the `instanceof JsonWebTokenError`
branch of `protect` catches an expired token first: an expired but
otherwise well-formed bearer token yields the "Invalid token" message,
not the distinct "token expired" one, so the dedicated
`TokenExpiredError` branch is unreachable.  The other parts of the claim
hold: a missing authorization header fails 401 "not logged in", and a
deactivated account fails 401 "deactivated". -/
theorem protect_expired_token_divergence :
    protect (some "Bearer t0") (some "secret")
      (fun _ _ => Except.error JwtError.expired) (fun _ => none)
      = .err "Invalid token. Please log in again." 401
    ∧ protect (some "Bearer t0") (some "secret")
        (fun _ _ => Except.error JwtError.expired) (fun _ => none)
        ≠ .err "Your token has expired. Please log in again." 401
    ∧ protect none (some "secret")
        (fun _ _ => Except.error JwtError.expired) (fun _ => none)
      = .err "You are not logged in! Please log in to get access." 401
    ∧ protect (some "Bearer t0") (some "secret")
        (fun _ _ => Except.ok { userId := 9 })
        (fun i => if i = 9 then
            some { _id := 9, role := "PM", isActive := false, directReports := [] }
          else none)
      = .err "Your account has been deactivated. Please contact support." 401 := by
  refine ⟨?_, ?_, ?_, ?_⟩ <;> decide

/-- C6: in minimal (production) mode, every non-operational error is
answered with the fixed generic body — status code 500, classification
"error", message "Something went wrong!", no raw error object and no
stack — independently of the error's own message, stack, status or
content. -/
theorem sendErrorProd_nonoperational_generic (err : ErrRec)
    (h : err.isOperational = false) :
    (sendErrorProd err).1
      = { statusCode := 500, status := "error",
          message := "Something went wrong!", errorObj := none,
          stack := none } := by
  unfold sendErrorProd
  rw [h]
  simp

/-- Witness for C6: a non-operational error carrying a sensitive message
and stack is answered with the generic body. -/
theorem sendErrorProd_nonoperational_generic_witness :
    (sendErrorProd
      { statusCode := 418, status := "fail",
        message := "db password is hunter2", stack := "at secretFn",
        isOperational := false }).1
      = { statusCode := 500, status := "error",
          message := "Something went wrong!", errorObj := none,
          stack := none } :=
  sendErrorProd_nonoperational_generic
    { statusCode := 418, status := "fail",
      message := "db password is hunter2", stack := "at secretFn",
      isOperational := false } rfl

/-- C7 counterexample: a non-operational error handled in verbose
(development) mode is not logged server-side at all — `sendErrorDev`
contains no logging statement — refuting the claim that non-operational
errors are logged regardless of the selected response mode. -/
theorem errorHandler_dev_no_log :
    ({ statusCode := none, status := none, message := "boom",
       stack := "trace", isOperational := false, code := none,
       name := "TypeError", keyValue := [], errors := [] } : RawErr).isOperational
      = false
    ∧ (errorHandler .development
        { statusCode := none, status := none, message := "boom",
          stack := "trace", isOperational := false, code := none,
          name := "TypeError", keyValue := [], errors := [] }).2 = [] := by
  decide

/-- C7 (amended): a non-operational error that matches none of the known
driver/library patterns (duplicate-key code 11000, `ValidationError`,
`JsonWebTokenError`, `TokenExpiredError`) is logged server-side in
minimal (production) mode, but in verbose (development) mode no
server-side logging occurs. -/
theorem errorHandler_log_prod_only (err : RawErr)
    (hop : err.isOperational = false)
    (hcode : err.code ≠ some 11000)
    (hn1 : err.name ≠ "ValidationError")
    (hn2 : err.name ≠ "JsonWebTokenError")
    (hn3 : err.name ≠ "TokenExpiredError") :
    (errorHandler .production err).2 ≠ []
    ∧ (errorHandler .development err).2 = [] := by
  constructor
  · unfold errorHandler
    simp only [if_neg hcode, if_neg hn1, if_neg hn2, if_neg hn3]
    unfold sendErrorProd
    simp [hop]
  · unfold errorHandler sendErrorDev
    simp

/-- Witness for C7 (amended) at a concrete unrecognized non-operational
error. -/
theorem errorHandler_log_prod_only_witness :
    (errorHandler .production
      { statusCode := none, status := none, message := "boom",
        stack := "trace", isOperational := false, code := none,
        name := "TypeError", keyValue := [], errors := [] }).2 ≠ []
    ∧ (errorHandler .development
      { statusCode := none, status := none, message := "boom",
        stack := "trace", isOperational := false, code := none,
        name := "TypeError", keyValue := [], errors := [] }).2 = [] :=
  errorHandler_log_prod_only
    { statusCode := none, status := none, message := "boom",
      stack := "trace", isOperational := false, code := none,
      name := "TypeError", keyValue := [], errors := [] }
    rfl (by decide) (by decide) (by decide) (by decide)

end DevTasks
